import Mathlib

/-!
Verification of the HTTP relay in this repository: the Express server
(`POST /translate`, `POST /ai/:task`) and the serverless `/translate`
handler. The JavaScript handlers are shallowly embedded: request bodies
are modelled as parsed JSON objects (association lists), JavaScript
truthiness and property access are made explicit, and the single
outbound call to the upstream completion API is replaced by an explicit
stub argument, so each route becomes a pure function from
(request body, environment, upstream behaviour) to an HTTP response.
-/

/-- Parsed JSON values, as produced by `express.json()` / `response.json()`.
Numbers are modelled as integers (the repository never computes with
numeric payload fields; they only matter for JavaScript truthiness and
string interpolation). -/
inductive Json where
  | null : Json
  | bool : Bool → Json
  | num : Int → Json
  | str : String → Json
  | arr : List Json → Json
  | obj : List (String × Json) → Json

/-- First-match association-list lookup: JavaScript object property access
(parsed JSON objects have unique keys, so first match is the match). -/
def lookupField : List (String × Json) → String → Option Json
  | [], _ => none
  | (k, v) :: rest, key => if k = key then some v else lookupField rest key

/-- JavaScript property access `j.k` on a non-null value: objects look up
the key, every other value yields `undefined` (`none`). (Access on `null`
throws in JavaScript; the handlers below model the throw explicitly at
each place it can occur.) -/
def Json.getField : Json → String → Option Json
  | .obj kvs, k => lookupField kvs k
  | _, _ => none

/-- JavaScript element access `j[i]` for a numeric index on a non-null
value: arrays index, strings index characters, objects look up the
stringified index, everything else yields `undefined`. -/
def Json.index : Json → Nat → Option Json
  | .arr l, i => l.get? i
  | .str s, i => (s.toList.get? i).map (fun c => Json.str (String.singleton c))
  | .obj kvs, i => lookupField kvs (toString i)
  | _, _ => none

/-- JavaScript truthiness of a value. -/
def Json.truthy : Json → Bool
  | .null => false
  | .bool b => b
  | .num n => n != 0
  | .str s => s != ""
  | .arr _ => true
  | .obj _ => true

/-- Truthiness of a possibly-undefined value (`none` = `undefined`, falsy). -/
def optTruthy (o : Option Json) : Bool :=
  match o with
  | none => false
  | some j => j.truthy

/-- The JavaScript test `typeof x === "string"`. -/
def isStringOpt (o : Option Json) : Bool :=
  match o with
  | some (.str _) => true
  | _ => false

/-- Property access on a possibly-undefined value (`o.bind` chains accesses,
as in `data.choices[0].message` after the truthiness guards). -/
def optField (o : Option Json) (k : String) : Option Json :=
  o.bind (fun j => j.getField k)

/-- Element access on a possibly-undefined value. -/
def optIndex (o : Option Json) (i : Nat) : Option Json :=
  o.bind (fun j => j.index i)

/-- JavaScript optional chaining `o?.k`: `undefined`/`null` short-circuit to
`undefined`, any other value is accessed normally. -/
def optChain (o : Option Json) (k : String) : Option Json :=
  match o with
  | none => none
  | some .null => none
  | some j => j.getField k

/-- The JavaScript `x || d` default, as used in
`errorData.error?.message || "API request failed"`. -/
def jsOr (o : Option Json) (d : Json) : Json :=
  match o with
  | none => d
  | some v => if v.truthy then v else d

/-- Server environment: only `GROQ_API_KEY` is relevant to the verified
claims (`GROQ_MODEL`, `MAX_TOKENS`, `TEMPERATURE`, `PORT` only shape the
outbound request payload, which no claim inspects). `none` models an
unset variable. -/
structure Env where
  groqApiKey : Option String

/-- The JavaScript truthiness test `!!process.env.GROQ_API_KEY`: unset and
empty both count as not configured. -/
def Env.configured : Env → Bool
  | ⟨none⟩ => false
  | ⟨some s⟩ => s != ""

/-- Behaviour of the single outbound `fetch` to the upstream completion
API, supplied as a stub: either the transport fails (the promise rejects
with an error whose message is `msg`), or the upstream replies with an
HTTP response (`ok` is the fetch `Response.ok` flag, `status` its status
code) whose body parses to the JSON value `body`. Responses whose body is
not valid JSON are outside this model; every claim concerns JSON bodies. -/
inductive Upstream where
  | transportFail : String → Upstream
  | reply : Bool → Nat → Json → Upstream

/-- Outcome of one route invocation: HTTP status, response body (`none`
for an empty `res.end()` response), and whether the outbound upstream
call was made before responding. -/
structure RouteResult where
  status : Nat
  body : Option Json
  calledUpstream : Bool

/-- HTTP method of the incoming request (the serverless handler inspects
it; the Express routes are only mounted for their method). -/
inductive Method where
  | get | post | options | put | delete | other

/-- JSON body `{error: msg}`. -/
def errObj (msg : String) : Json :=
  Json.obj [("error", Json.str msg)]

/-- V8 TypeError message raised by reading property `k` of `null`, as when
the parsed upstream body is JSON `null` and the handler evaluates
`data.choices` or `errorData.error`. The `try`/`catch` turns it into a
500 response carrying this text. -/
def nullReadMsg (k : String) : String :=
  "Cannot read properties of null (reading \x27" ++ k ++ "\x27)"

/-- Json value of `errorData.error?.message || "API request failed"`. -/
def upstreamErrMsg (errorData : Json) : Json :=
  jsOr (optChain (errorData.getField "error") "message") (Json.str "API request failed")

/-- Shape check applied to a successful upstream body: the value of
`data.choices && data.choices[0] && data.choices[0].message`
(the handlers reject when its negation holds). -/
def hasChoiceMessage (data : Json) : Bool :=
  optTruthy (data.getField "choices")
    && optTruthy (optIndex (data.getField "choices") 0)
    && optTruthy (optField (optIndex (data.getField "choices") 0) "message")

/-- Validation applied to `prompt` by both `/translate` paths:
`!prompt || typeof prompt !== "string"` fails; this is its negation. -/
def promptValid (o : Option Json) : Bool :=
  optTruthy o && isStringOpt o

/-- The Express route `app.post("/translate")` (server entry point), as a
function of the parsed JSON object request body, the environment, and the
stubbed upstream behaviour. Follows the source line by line: validate
`prompt`, check the credential, call upstream, pass errors or the
validated body through; the surrounding `try`/`catch` turns a transport
failure or a TypeError on a `null` body into a 500
`Internal server error: ...` response. -/
def translateServer (reqBody : List (String × Json)) (env : Env) (up : Upstream) : RouteResult :=
  let prompt := lookupField reqBody "prompt"
  if !(promptValid prompt) then
    ⟨400, some (errObj "Invalid request: prompt is required and must be a string"), false⟩
  else if !(env.configured) then
    ⟨500, some (errObj "Server configuration error: GROQ_API_KEY not found in environment variables"), false⟩
  else
    match up with
    | .transportFail msg =>
        ⟨500, some (errObj ("Internal server error: " ++ msg)), true⟩
    | .reply ok status body =>
        if !ok then
          match body with
          | .null => ⟨500, some (errObj ("Internal server error: " ++ nullReadMsg "error")), true⟩
          | _ => ⟨status, some (Json.obj [("error", upstreamErrMsg body), ("details", body)]), true⟩
        else
          match body with
          | .null => ⟨500, some (errObj ("Internal server error: " ++ nullReadMsg "choices")), true⟩
          | _ =>
              if !(hasChoiceMessage body) then
                ⟨500, some (errObj "Invalid response from AI service"), true⟩
              else
                ⟨200, some body, true⟩

/-- The serverless `/translate` handler (`api/translate.js`), same shape
as `translateServer` plus method handling, with two textual differences:
the missing-credential message omits " in environment variables" and the
upstream-error body has no `details` field. -/
def translateServerless (m : Method) (reqBody : List (String × Json)) (env : Env) (up : Upstream) : RouteResult :=
  match m with
  | .options => ⟨200, none, false⟩
  | .post =>
      let prompt := lookupField reqBody "prompt"
      if !(promptValid prompt) then
        ⟨400, some (errObj "Invalid request: prompt is required and must be a string"), false⟩
      else if !(env.configured) then
        ⟨500, some (errObj "Server configuration error: GROQ_API_KEY not found"), false⟩
      else
        match up with
        | .transportFail msg =>
            ⟨500, some (errObj ("Internal server error: " ++ msg)), true⟩
        | .reply ok status body =>
            if !ok then
              match body with
              | .null => ⟨500, some (errObj ("Internal server error: " ++ nullReadMsg "error")), true⟩
              | _ => ⟨status, some (Json.obj [("error", upstreamErrMsg body)]), true⟩
            else
              match body with
              | .null => ⟨500, some (errObj ("Internal server error: " ++ nullReadMsg "choices")), true⟩
              | _ =>
                  if !(hasChoiceMessage body) then
                    ⟨500, some (errObj "Invalid response from AI service"), true⟩
                  else
                    ⟨200, some body, true⟩
  | _ => ⟨405, some (errObj "Method not allowed"), false⟩

mutual
/-- JavaScript string conversion, as performed by the template literals
of the `/ai/:task` switch (`${content}`, `${language}`). -/
def jsToString : Json → String
  | .null => "null"
  | .bool b => cond b "true" "false"
  | .num n => toString n
  | .str s => s
  | .arr l => jsArrToString l
  | .obj _ => "[object Object]"

/-- Array-to-string: elements joined by commas. -/
def jsArrToString : List Json → String
  | [] => ""
  | [x] => jsElemToString x
  | x :: y :: rest => jsElemToString x ++ "," ++ jsArrToString (y :: rest)

/-- An array element converts like the value, except `null` renders empty. -/
def jsElemToString : Json → String
  | .null => ""
  | .bool b => cond b "true" "false"
  | .num n => toString n
  | .str s => s
  | .arr l => jsArrToString l
  | .obj _ => "[object Object]"
end

/-- Template-literal interpolation of a possibly-undefined value
(`undefined` renders as "undefined"). -/
def interpolate : Option Json → String
  | none => "undefined"
  | some j => jsToString j

/-- Outcome of the `switch (task)` block of `app.post("/ai/:task")`. -/
inductive PromptResult where
  | ok : String → PromptResult
  | missingLanguage : PromptResult
  | invalidTask : PromptResult

/-- The `switch (task)` of `app.post("/ai/:task")`: builds the prompt for
a known task from the destructured `content` and `language` (the
`translate` case first requires a truthy `language`), and signals an
invalid task otherwise. The cascade of string comparisons mirrors the
source cases in order. -/
def resolvePrompt (task : String) (content language : Option Json) : PromptResult :=
  if task = "summary" then
    .ok ("Please provide a concise 2-3 sentence summary of the following text:\n\n" ++ interpolate content)
  else if task = "grammar" then
    .ok ("Please check the following text for grammar errors and provide suggestions for improvement:\n\n" ++ interpolate content)
  else if task = "tags" then
    .ok ("Based on the following text, suggest 5 relevant tags (single words or short phrases). Return only the tags separated by commas:\n\n" ++ interpolate content)
  else if task = "translate" then
    if !(optTruthy language) then
      .missingLanguage
    else
      .ok ("Translate the following text to " ++ interpolate language ++ ". Maintain the original meaning and tone. Only return the translated text without any additional comments:\n\n" ++ interpolate content)
  else if task = "terms" then
    .ok ("Identify 8-10 key technical terms, concepts, or important words from the following text. Return only the terms separated by commas:\n\n" ++ interpolate content)
  else if task = "define" then
    .ok ("Provide a brief, clear definition (1-2 sentences maximum) for the term: \"" ++ interpolate content ++ "\". Focus on the most relevant meaning in context.")
  else if task = "detailed-define" then
    .ok ("Provide a comprehensive but concise explanation of the term: \"" ++ interpolate content ++ "\". Include its definition, context, and why it\x27s important. Keep it informative but not too lengthy (3-4 sentences maximum).")
  else
    .invalidTask

/-- The Express route `app.post("/ai/:task")`: requires a truthy
`content`, resolves the task template, then delegates by POSTing
`{prompt}` to its own `/translate` endpoint and replying with the
delegated response body via `res.json(data)` — with no `.status(...)`,
so the outer status is the Express default 200 whenever delegation
happens. -/
def aiTaskRoute (task : String) (reqBody : List (String × Json)) (env : Env) (up : Upstream) : RouteResult :=
  let content := lookupField reqBody "content"
  let language := lookupField reqBody "language"
  if !(optTruthy content) then
    ⟨400, some (errObj "Content is required"), false⟩
  else
    match resolvePrompt task content language with
    | .missingLanguage => ⟨400, some (errObj "Language is required for translation"), false⟩
    | .invalidTask => ⟨400, some (errObj "Invalid task. Supported tasks: summary, grammar, tags, translate, terms, define, detailed-define"), false⟩
    | .ok prompt =>
        let inner := translateServer [("prompt", Json.str prompt)] env up
        ⟨200, inner.body, inner.calledUpstream⟩

/-- Template table row `summary` as written in the specification, with
the `\x7bcontent\x7d` placeholder substituted by concatenation. -/
def specSummary (content : String) : String :=
  "Please provide a concise 2-3 sentence summary of the following text:\n\n" ++ content

/-- Template table row `grammar` from the specification. -/
def specGrammar (content : String) : String :=
  "Please check the following text for grammar errors and provide suggestions for improvement:\n\n" ++ content

/-- Template table row `tags` from the specification. -/
def specTags (content : String) : String :=
  "Based on the following text, suggest 5 relevant tags (single words or short phrases). Return only the tags separated by commas:\n\n" ++ content

/-- Template table row `translate` from the specification, with both
placeholders substituted. -/
def specTranslate (content language : String) : String :=
  "Translate the following text to " ++ language ++ ". Maintain the original meaning and tone. Only return the translated text without any additional comments:\n\n" ++ content

/-- Template table row `terms` from the specification. -/
def specTerms (content : String) : String :=
  "Identify 8-10 key technical terms, concepts, or important words from the following text. Return only the terms separated by commas:\n\n" ++ content

/-- Template table row `define` from the specification. -/
def specDefine (content : String) : String :=
  "Provide a brief, clear definition (1-2 sentences maximum) for the term: \"" ++ content ++ "\". Focus on the most relevant meaning in context."

/-- Template table row `detailed-define` from the specification. -/
def specDetailedDefine (content : String) : String :=
  "Provide a comprehensive but concise explanation of the term: \"" ++ content ++ "\". Include its definition, context, and why it\x27s important. Keep it informative but not too lengthy (3-4 sentences maximum)."

/-- C1: for every task in the template table and every content string
(and language string for the translate row — the route only builds the
translate prompt when the language is truthy, i.e. non-empty), the
prompt built by the `/ai/:task` switch is exactly the literal template
of the specification with the placeholders substituted verbatim and
unescaped, special characters included. -/
theorem c1_templates_match_spec (c l : String) (hl : l ≠ "") :
    resolvePrompt "summary" (some (.str c)) (some (.str l)) = .ok (specSummary c)
  ∧ resolvePrompt "grammar" (some (.str c)) (some (.str l)) = .ok (specGrammar c)
  ∧ resolvePrompt "tags" (some (.str c)) (some (.str l)) = .ok (specTags c)
  ∧ resolvePrompt "translate" (some (.str c)) (some (.str l)) = .ok (specTranslate c l)
  ∧ resolvePrompt "terms" (some (.str c)) (some (.str l)) = .ok (specTerms c)
  ∧ resolvePrompt "define" (some (.str c)) (some (.str l)) = .ok (specDefine c)
  ∧ resolvePrompt "detailed-define" (some (.str c)) (some (.str l)) = .ok (specDetailedDefine c) := by
  refine ⟨?_, ?_, ?_, ?_, ?_, ?_, ?_⟩ <;>
    simp [resolvePrompt, interpolate, jsToString, optTruthy, Json.truthy, hl,
      specSummary, specGrammar, specTags, specTranslate, specTerms, specDefine,
      specDetailedDefine]

/-- Witness for C1 at a concrete content with special characters and a
concrete language. -/
theorem c1_templates_match_spec_witness :
    ("French" : String) ≠ ""
  ∧ resolvePrompt "summary" (some (.str "a \"b\" & <c>\n")) (some (.str "French"))
      = .ok (specSummary "a \"b\" & <c>\n")
  ∧ resolvePrompt "translate" (some (.str "a \"b\" & <c>\n")) (some (.str "French"))
      = .ok (specTranslate "a \"b\" & <c>\n" "French") :=
  ⟨by decide, (c1_templates_match_spec "a \"b\" & <c>\n" "French" (by decide)).1,
    (c1_templates_match_spec "a \"b\" & <c>\n" "French" (by decide)).2.2.2.1⟩

/-- A request body whose `prompt` fails validation is rejected by the
server route with 400 before any upstream call. -/
theorem translateServer_badPrompt (kvs : List (String × Json)) (env : Env) (up : Upstream)
    (h : promptValid (lookupField kvs "prompt") = false) :
    translateServer kvs env up
      = ⟨400, some (errObj "Invalid request: prompt is required and must be a string"), false⟩ := by
  simp [translateServer, h]

/-- A request body whose `prompt` fails validation is rejected by the
serverless handler with 400 before any upstream call. -/
theorem translateServerless_badPrompt (kvs : List (String × Json)) (env : Env) (up : Upstream)
    (h : promptValid (lookupField kvs "prompt") = false) :
    translateServerless .post kvs env up
      = ⟨400, some (errObj "Invalid request: prompt is required and must be a string"), false⟩ := by
  simp [translateServerless, h]

/-- With a valid prompt but no configured credential, the server route
answers 500 before any upstream call. -/
theorem translateServer_noKey (kvs : List (String × Json)) (env : Env) (up : Upstream)
    (hp : promptValid (lookupField kvs "prompt") = true) (hk : env.configured = false) :
    translateServer kvs env up
      = ⟨500, some (errObj "Server configuration error: GROQ_API_KEY not found in environment variables"), false⟩ := by
  simp [translateServer, hp, hk]

/-- With a valid prompt but no configured credential, the serverless
handler answers 500 before any upstream call. -/
theorem translateServerless_noKey (kvs : List (String × Json)) (env : Env) (up : Upstream)
    (hp : promptValid (lookupField kvs "prompt") = true) (hk : env.configured = false) :
    translateServerless .post kvs env up
      = ⟨500, some (errObj "Server configuration error: GROQ_API_KEY not found"), false⟩ := by
  simp [translateServerless, hp, hk]

/-- A body passing the choice/message shape check is not JSON `null`. -/
theorem hasChoiceMessage_ne_null (b : Json) (h : hasChoiceMessage b = true) :
    b ≠ Json.null := by
  intro hb; subst hb
  simp [hasChoiceMessage, Json.getField, optTruthy] at h

/-- C2: for every upstream success reply whose JSON body passes the
choice/message shape check (a non-empty `choices[0].message`), both
`/translate` paths answer 200 with exactly that upstream body, given a
valid prompt and a configured credential. -/
theorem c2_success_passthrough (kvs : List (String × Json)) (env : Env) (s : Nat) (b : Json)
    (hp : promptValid (lookupField kvs "prompt") = true)
    (hk : env.configured = true)
    (hb : hasChoiceMessage b = true) :
    translateServer kvs env (.reply true s b) = ⟨200, some b, true⟩
  ∧ translateServerless .post kvs env (.reply true s b) = ⟨200, some b, true⟩ := by
  have hnn := hasChoiceMessage_ne_null b hb
  constructor
  · cases b <;>
      first
        | exact absurd rfl hnn
        | simp [translateServer, hp, hk, hb]
  · cases b <;>
      first
        | exact absurd rfl hnn
        | simp [translateServerless, hp, hk, hb]

/-- Witness for C2 at the stub body used by the specification test
(`choices[0].message.content = "X"`). -/
theorem c2_success_passthrough_witness :
    promptValid (lookupField [("prompt", Json.str "hi")] "prompt") = true
  ∧ Env.configured ⟨some "k"⟩ = true
  ∧ hasChoiceMessage (Json.obj [("choices", Json.arr [Json.obj [("message", Json.obj [("content", Json.str "X")])]])]) = true
  ∧ translateServer [("prompt", Json.str "hi")] ⟨some "k"⟩
      (.reply true 200 (Json.obj [("choices", Json.arr [Json.obj [("message", Json.obj [("content", Json.str "X")])]])]))
      = ⟨200, some (Json.obj [("choices", Json.arr [Json.obj [("message", Json.obj [("content", Json.str "X")])]])]), true⟩ :=
  ⟨rfl, rfl, rfl,
    (c2_success_passthrough [("prompt", Json.str "hi")] ⟨some "k"⟩ 200
      (Json.obj [("choices", Json.arr [Json.obj [("message", Json.obj [("content", Json.str "X")])]])])
      rfl rfl rfl).1⟩

/-- A request body with falsy `content` is rejected by `/ai/:task` with
400 before the task switch, for every task. -/
theorem aiTask_falsyContent (task : String) (kvs : List (String × Json)) (env : Env) (up : Upstream)
    (h : optTruthy (lookupField kvs "content") = false) :
    aiTaskRoute task kvs env up = ⟨400, some (errObj "Content is required"), false⟩ := by
  simp [aiTaskRoute, h]

/-- With truthy `content` and a resolved template, `/ai/:task` delegates:
its body and upstream-call flag come from `/translate` run on `{prompt}`,
and its status is the Express default 200. -/
theorem aiTask_delegates (task : String) (kvs : List (String × Json)) (env : Env) (up : Upstream)
    (p : String)
    (hc : optTruthy (lookupField kvs "content") = true)
    (hp : resolvePrompt task (lookupField kvs "content") (lookupField kvs "language") = .ok p) :
    aiTaskRoute task kvs env up
      = ⟨200, (translateServer [("prompt", Json.str p)] env up).body,
          (translateServer [("prompt", Json.str p)] env up).calledUpstream⟩ := by
  simp [aiTaskRoute, hc, hp]

/-- C3 counterexample: with task `summary`, content "hi", and no
credential configured, `/ai/summary` answers status 200 while
`/translate` on the resolved prompt answers 500 — the delegated reply is
sent with `res.json(data)` and no status, so the claim that the two
statuses always agree is false. -/
theorem c3_counterexample :
    (aiTaskRoute "summary" [("content", Json.str "hi")] ⟨none⟩ (.reply true 200 (Json.obj []))).status = 200
  ∧ (translateServer [("prompt", Json.str (specSummary "hi"))] ⟨none⟩ (.reply true 200 (Json.obj []))).status = 500 := by
  constructor <;> rfl

/-- C3 amended: for every valid task request (truthy content, task
resolving to a prompt), the `/ai/:task` response body equals the body of
`/translate` invoked with the resolved template prompt, but the
`/ai/:task` status is always 200, so the statuses agree only when
`/translate` itself succeeds. -/
theorem c3_amended (task : String) (kvs : List (String × Json)) (env : Env) (up : Upstream)
    (p : String)
    (hc : optTruthy (lookupField kvs "content") = true)
    (hp : resolvePrompt task (lookupField kvs "content") (lookupField kvs "language") = .ok p) :
    (aiTaskRoute task kvs env up).body = (translateServer [("prompt", Json.str p)] env up).body
  ∧ (aiTaskRoute task kvs env up).status = 200 := by
  rw [aiTask_delegates task kvs env up p hc hp]
  exact ⟨rfl, rfl⟩

/-- Witness for the amended C3 at task `summary`, content "hi", a
configured credential and a well-shaped upstream reply. -/
theorem c3_amended_witness :
    optTruthy (lookupField [("content", Json.str "hi")] "content") = true
  ∧ resolvePrompt "summary" (lookupField [("content", Json.str "hi")] "content")
      (lookupField [("content", Json.str "hi")] "language") = .ok (specSummary "hi")
  ∧ (aiTaskRoute "summary" [("content", Json.str "hi")] ⟨some "k"⟩
        (.reply true 200 (Json.obj [("choices", Json.arr [Json.obj [("message", Json.obj [("content", Json.str "X")])]])]))).body
      = (translateServer [("prompt", Json.str (specSummary "hi"))] ⟨some "k"⟩
        (.reply true 200 (Json.obj [("choices", Json.arr [Json.obj [("message", Json.obj [("content", Json.str "X")])]])]))).body :=
  ⟨rfl, rfl,
    (c3_amended "summary" [("content", Json.str "hi")] ⟨some "k"⟩
      (.reply true 200 (Json.obj [("choices", Json.arr [Json.obj [("message", Json.obj [("content", Json.str "X")])]])]))
      (specSummary "hi") rfl rfl).1⟩

/-- C4 counterexample: a non-string `content` (the number 42) on
`/ai/summary` is not rejected — it passes the truthiness-only check, is
interpolated into the template, and the request proceeds to delegation
(answering 200 here), contradicting the claim that a non-string content
is rejected with 400. -/
theorem c4_counterexample :
    ¬ ((aiTaskRoute "summary" [("content", Json.num 42)] ⟨some "k"⟩
        (.reply true 200 (Json.obj [("choices", Json.arr [Json.obj [("message", Json.obj [("content", Json.str "X")])]])]))).status = 400) := by
  intro h
  have : (200 : Nat) = 400 := h
  simp at this

/-- C4 amended: both `/translate` paths reject a missing, falsy, or
non-string `prompt` with 400; `/ai/:task` rejects only a falsy `content`
with 400 (its check is truthiness-only), so a truthy non-string content
passes validation. -/
theorem c4_amended :
    (∀ kvs env up, promptValid (lookupField kvs "prompt") = false →
        translateServer kvs env up
          = ⟨400, some (errObj "Invalid request: prompt is required and must be a string"), false⟩
      ∧ translateServerless .post kvs env up
          = ⟨400, some (errObj "Invalid request: prompt is required and must be a string"), false⟩)
  ∧ (∀ task kvs env up, optTruthy (lookupField kvs "content") = false →
        aiTaskRoute task kvs env up = ⟨400, some (errObj "Content is required"), false⟩) := by
  constructor
  · intro kvs env up h
    exact ⟨translateServer_badPrompt kvs env up h, translateServerless_badPrompt kvs env up h⟩
  · intro task kvs env up h
    exact aiTask_falsyContent task kvs env up h

/-- Witness for the amended C4: a numeric prompt is rejected by
`/translate`, a missing content is rejected by `/ai/grammar`. -/
theorem c4_amended_witness :
    promptValid (lookupField [("prompt", Json.num 7)] "prompt") = false
  ∧ optTruthy (lookupField [] "content") = false
  ∧ translateServer [("prompt", Json.num 7)] ⟨some "k"⟩ (.transportFail "down")
      = ⟨400, some (errObj "Invalid request: prompt is required and must be a string"), false⟩
  ∧ aiTaskRoute "grammar" [] ⟨some "k"⟩ (.transportFail "down")
      = ⟨400, some (errObj "Content is required"), false⟩ :=
  ⟨rfl, rfl,
    (c4_amended.1 [("prompt", Json.num 7)] ⟨some "k"⟩ (.transportFail "down") rfl).1,
    c4_amended.2 "grammar" [] ⟨some "k"⟩ (.transportFail "down") rfl⟩

/-- C5 counterexample: task "bogus" with an empty request body is
answered 400 "Content is required" — the content check fires before the
task switch — not the InvalidTask failure listing the valid set, so
"regardless of the rest of the request body" is false. -/
theorem c5_counterexample :
    (aiTaskRoute "bogus" [] ⟨some "k"⟩ (.reply true 200 (Json.obj []))).body
      ≠ some (errObj "Invalid task. Supported tasks: summary, grammar, tags, translate, terms, define, detailed-define") := by
  have h : (aiTaskRoute "bogus" [] ⟨some "k"⟩ (.reply true 200 (Json.obj []))).body
      = some (errObj "Content is required") := rfl
  rw [h]
  simp [errObj]

/-- C5 amended: for every task outside the supported set, if the request
body has a truthy `content` the response is the 400 InvalidTask failure
listing the valid set; with a falsy `content` the content check answers
400 "Content is required" first. -/
theorem c5_amended (task : String) (kvs : List (String × Json)) (env : Env) (up : Upstream)
    (h1 : task ≠ "summary") (h2 : task ≠ "grammar") (h3 : task ≠ "tags")
    (h4 : task ≠ "translate") (h5 : task ≠ "terms") (h6 : task ≠ "define")
    (h7 : task ≠ "detailed-define")
    (hc : optTruthy (lookupField kvs "content") = true) :
    aiTaskRoute task kvs env up
      = ⟨400, some (errObj "Invalid task. Supported tasks: summary, grammar, tags, translate, terms, define, detailed-define"), false⟩ := by
  simp [aiTaskRoute, hc, resolvePrompt, h1, h2, h3, h4, h5, h6, h7]

/-- Witness for the amended C5 at task "bogus" with truthy content. -/
theorem c5_amended_witness :
    ("bogus" : String) ≠ "summary"
  ∧ optTruthy (lookupField [("content", Json.str "x")] "content") = true
  ∧ aiTaskRoute "bogus" [("content", Json.str "x")] ⟨some "k"⟩ (.transportFail "down")
      = ⟨400, some (errObj "Invalid task. Supported tasks: summary, grammar, tags, translate, terms, define, detailed-define"), false⟩ :=
  ⟨by decide, rfl,
    c5_amended "bogus" [("content", Json.str "x")] ⟨some "k"⟩ (.transportFail "down")
      (by decide) (by decide) (by decide) (by decide) (by decide) (by decide) (by decide) rfl⟩

/-- C6: on `/ai/translate`, whenever the request body has no `language`
field the response is a 400 InvalidInput failure regardless of the
content value — "Language is required for translation" when content is
truthy, "Content is required" when it is falsy — and no upstream call is
made. -/
theorem c6_translate_needs_language (kvs : List (String × Json)) (env : Env) (up : Upstream)
    (hl : lookupField kvs "language" = none) :
    (aiTaskRoute "translate" kvs env up).status = 400
  ∧ ((aiTaskRoute "translate" kvs env up).body = some (errObj "Language is required for translation")
      ∨ (aiTaskRoute "translate" kvs env up).body = some (errObj "Content is required"))
  ∧ (aiTaskRoute "translate" kvs env up).calledUpstream = false := by
  by_cases hc : optTruthy (lookupField kvs "content") = true
  · have hr : resolvePrompt "translate" (lookupField kvs "content") (lookupField kvs "language")
        = .missingLanguage := by
      simp [resolvePrompt, hl, optTruthy]
    simp [aiTaskRoute, hc, hr]
  · have hc' : optTruthy (lookupField kvs "content") = false := by simpa using hc
    simp [aiTask_falsyContent "translate" kvs env up hc']

/-- Witness for C6 at a body holding only a truthy content. -/
theorem c6_translate_needs_language_witness :
    lookupField [("content", Json.str "hello")] "language" = none
  ∧ (aiTaskRoute "translate" [("content", Json.str "hello")] ⟨some "k"⟩ (.transportFail "down")).status = 400 :=
  ⟨rfl,
    (c6_translate_needs_language [("content", Json.str "hello")] ⟨some "k"⟩ (.transportFail "down") rfl).1⟩

/-- C7 counterexample: the JSON body `null` lacks the choices/message
shape, yet `/translate` does not answer with the MalformedUpstreamResponse
body — reading `.choices` of `null` throws, and the catch-all turns it
into a 500 "Internal server error: ..." instead. -/
theorem c7_counterexample :
    hasChoiceMessage Json.null = false
  ∧ (translateServer [("prompt", Json.str "hi")] ⟨some "k"⟩ (.reply true 200 Json.null)).status = 500
  ∧ (translateServer [("prompt", Json.str "hi")] ⟨some "k"⟩ (.reply true 200 Json.null)).body
      ≠ some (errObj "Invalid response from AI service") := by
  refine ⟨rfl, rfl, ?_⟩
  have h : (translateServer [("prompt", Json.str "hi")] ⟨some "k"⟩ (.reply true 200 Json.null)).body
      = some (errObj ("Internal server error: " ++ nullReadMsg "choices")) := rfl
  rw [h]
  simp [errObj, nullReadMsg]

/-- C7 amended: for every upstream success reply whose JSON body is not
`null` and fails the choices[0].message shape check, both `/translate`
paths answer 500 with the "Invalid response from AI service" body (given
a valid prompt and configured credential); a `null` body instead hits the
catch-all 500. -/
theorem c7_amended (kvs : List (String × Json)) (env : Env) (s : Nat) (b : Json)
    (hp : promptValid (lookupField kvs "prompt") = true)
    (hk : env.configured = true)
    (hb : hasChoiceMessage b = false)
    (hnn : b ≠ Json.null) :
    translateServer kvs env (.reply true s b)
      = ⟨500, some (errObj "Invalid response from AI service"), true⟩
  ∧ translateServerless .post kvs env (.reply true s b)
      = ⟨500, some (errObj "Invalid response from AI service"), true⟩ := by
  constructor
  · cases b <;>
      first
        | exact absurd rfl hnn
        | simp [translateServer, hp, hk, hb]
  · cases b <;>
      first
        | exact absurd rfl hnn
        | simp [translateServerless, hp, hk, hb]

/-- Witness for the amended C7 at the stub body of the specification, `\x7b\x7d`. -/
theorem c7_amended_witness :
    promptValid (lookupField [("prompt", Json.str "hi")] "prompt") = true
  ∧ Env.configured ⟨some "k"⟩ = true
  ∧ hasChoiceMessage (Json.obj []) = false
  ∧ Json.obj [] ≠ Json.null
  ∧ translateServer [("prompt", Json.str "hi")] ⟨some "k"⟩ (.reply true 200 (Json.obj []))
      = ⟨500, some (errObj "Invalid response from AI service"), true⟩ :=
  ⟨rfl, rfl, rfl, by simp,
    (c7_amended [("prompt", Json.str "hi")] ⟨some "k"⟩ 200 (Json.obj []) rfl rfl rfl (by simp)).1⟩

/-- C8: `/translate` with an empty body is answered 400 with the invalid
prompt error; with `\x7bprompt: "hi"\x7d` and no configured credential it is
answered 500 with the respective MissingCredential body — in both cases
without any upstream call, on either deployment path. -/
theorem c8_empty_body_and_missing_credential :
    (∀ (env : Env) (up : Upstream),
        translateServer [] env up
          = ⟨400, some (errObj "Invalid request: prompt is required and must be a string"), false⟩
      ∧ translateServerless .post [] env up
          = ⟨400, some (errObj "Invalid request: prompt is required and must be a string"), false⟩)
  ∧ (∀ (env : Env) (up : Upstream), env.configured = false →
        translateServer [("prompt", Json.str "hi")] env up
          = ⟨500, some (errObj "Server configuration error: GROQ_API_KEY not found in environment variables"), false⟩
      ∧ translateServerless .post [("prompt", Json.str "hi")] env up
          = ⟨500, some (errObj "Server configuration error: GROQ_API_KEY not found"), false⟩) := by
  constructor
  · intro env up
    exact ⟨translateServer_badPrompt [] env up rfl, translateServerless_badPrompt [] env up rfl⟩
  · intro env up hk
    exact ⟨translateServer_noKey [("prompt", Json.str "hi")] env up rfl hk,
      translateServerless_noKey [("prompt", Json.str "hi")] env up rfl hk⟩

/-- Witness for C8 with an unset credential and an arbitrary stub. -/
theorem c8_empty_body_and_missing_credential_witness :
    Env.configured ⟨none⟩ = false
  ∧ translateServer [] ⟨none⟩ (.transportFail "down")
      = ⟨400, some (errObj "Invalid request: prompt is required and must be a string"), false⟩
  ∧ translateServer [("prompt", Json.str "hi")] ⟨none⟩ (.transportFail "down")
      = ⟨500, some (errObj "Server configuration error: GROQ_API_KEY not found in environment variables"), false⟩
  ∧ translateServerless .post [("prompt", Json.str "hi")] ⟨none⟩ (.transportFail "down")
      = ⟨500, some (errObj "Server configuration error: GROQ_API_KEY not found"), false⟩ :=
  ⟨rfl,
    (c8_empty_body_and_missing_credential.1 ⟨none⟩ (.transportFail "down")).1,
    (c8_empty_body_and_missing_credential.2 ⟨none⟩ (.transportFail "down") rfl).1,
    (c8_empty_body_and_missing_credential.2 ⟨none⟩ (.transportFail "down") rfl).2⟩

/-- C9 counterexample: on the missing-credential branch the two
deployment paths answer different bodies — the message of the server
route ends in " in environment variables", that of the serverless
handler does not —
so the claim that they agree on every branch is false. -/
theorem c9_counterexample :
    (translateServer [("prompt", Json.str "hi")] ⟨none⟩ (.reply true 200 (Json.obj []))).body
      ≠ (translateServerless .post [("prompt", Json.str "hi")] ⟨none⟩ (.reply true 200 (Json.obj []))).body := by
  have h1 : (translateServer [("prompt", Json.str "hi")] ⟨none⟩ (.reply true 200 (Json.obj []))).body
      = some (errObj "Server configuration error: GROQ_API_KEY not found in environment variables") := rfl
  have h2 : (translateServerless .post [("prompt", Json.str "hi")] ⟨none⟩ (.reply true 200 (Json.obj []))).body
      = some (errObj "Server configuration error: GROQ_API_KEY not found") := rfl
  rw [h1, h2]
  simp [errObj]

/-- C9 amended: for every POST `/translate` request the two deployment
paths agree on the status code and on whether the upstream was called;
their bodies also agree on the validation-failure branch, and — given a
configured credential — on every branch except an upstream non-success
reply. They differ only in the missing-credential message text and in
the `details` field the server route adds to upstream-error bodies. -/
theorem c9_amended (kvs : List (String × Json)) (env : Env) (up : Upstream) :
    (translateServer kvs env up).status = (translateServerless .post kvs env up).status
  ∧ (translateServer kvs env up).calledUpstream = (translateServerless .post kvs env up).calledUpstream
  ∧ (promptValid (lookupField kvs "prompt") = false →
      (translateServer kvs env up).body = (translateServerless .post kvs env up).body)
  ∧ (env.configured = true → (∀ (s : Nat) (b : Json), up ≠ Upstream.reply false s b) →
      (translateServer kvs env up).body = (translateServerless .post kvs env up).body) := by
  by_cases hp : promptValid (lookupField kvs "prompt") = true
  · by_cases hk : env.configured = true
    · cases up with
      | transportFail m =>
          refine ⟨?_, ?_, ?_, ?_⟩ <;>
            simp [translateServer, translateServerless, hp, hk]
      | reply ok s b =>
          cases ok
          · refine ⟨?_, ?_, ?_, ?_⟩
            · cases b <;> simp [translateServer, translateServerless, hp, hk]
            · cases b <;> simp [translateServer, translateServerless, hp, hk]
            · intro h; simp [hp] at h
            · intro _ hne; exact absurd rfl (hne s b)
          · refine ⟨?_, ?_, ?_, ?_⟩
            · cases b <;> simp [translateServer, translateServerless, hp, hk]
            · cases b <;> simp [translateServer, translateServerless, hp, hk]
            · intro h; simp [hp] at h
            · intro _ _
              cases b <;> simp [translateServer, translateServerless, hp, hk]
    · have hk' : env.configured = false := by simpa using hk
      rw [translateServer_noKey kvs env up hp hk', translateServerless_noKey kvs env up hp hk']
      refine ⟨rfl, rfl, ?_, ?_⟩
      · intro h; simp [hp] at h
      · intro h; simp [h] at hk'
  · have hp' : promptValid (lookupField kvs "prompt") = false := by simpa using hp
    rw [translateServer_badPrompt kvs env up hp', translateServerless_badPrompt kvs env up hp']
    exact ⟨rfl, rfl, fun _ => rfl, fun _ _ => rfl⟩

/-- Witness for the amended C9 at a configured credential and a
well-shaped success reply. -/
theorem c9_amended_witness :
    Env.configured ⟨some "k"⟩ = true
  ∧ (∀ (s : Nat) (b : Json),
      (Upstream.reply true 200 (Json.obj [("choices", Json.arr [Json.obj [("message", Json.obj [("content", Json.str "X")])]])]))
        ≠ Upstream.reply false s b)
  ∧ (translateServer [("prompt", Json.str "hi")] ⟨some "k"⟩
        (.reply true 200 (Json.obj [("choices", Json.arr [Json.obj [("message", Json.obj [("content", Json.str "X")])]])]))).status
      = (translateServerless .post [("prompt", Json.str "hi")] ⟨some "k"⟩
        (.reply true 200 (Json.obj [("choices", Json.arr [Json.obj [("message", Json.obj [("content", Json.str "X")])]])]))).status
  ∧ (translateServer [("prompt", Json.str "hi")] ⟨some "k"⟩
        (.reply true 200 (Json.obj [("choices", Json.arr [Json.obj [("message", Json.obj [("content", Json.str "X")])]])]))).body
      = (translateServerless .post [("prompt", Json.str "hi")] ⟨some "k"⟩
        (.reply true 200 (Json.obj [("choices", Json.arr [Json.obj [("message", Json.obj [("content", Json.str "X")])]])]))).body :=
  ⟨rfl, fun s b h => by simp at h,
    (c9_amended [("prompt", Json.str "hi")] ⟨some "k"⟩
      (.reply true 200 (Json.obj [("choices", Json.arr [Json.obj [("message", Json.obj [("content", Json.str "X")])]])]))).1,
    (c9_amended [("prompt", Json.str "hi")] ⟨some "k"⟩
      (.reply true 200 (Json.obj [("choices", Json.arr [Json.obj [("message", Json.obj [("content", Json.str "X")])]])]))).2.2.2
      rfl (fun s b h => by simp at h)⟩

/-- C10: an empty string is present and is a string yet is rejected,
because both checks test truthiness: `/translate` (server and
serverless) with `prompt = ""` answers 400, and `/ai/:task` with
`content = ""` answers 400, for every task, environment and upstream. -/
theorem c10_empty_string_rejected (task : String) (env : Env) (up : Upstream) :
    translateServer [("prompt", Json.str "")] env up
      = ⟨400, some (errObj "Invalid request: prompt is required and must be a string"), false⟩
  ∧ translateServerless .post [("prompt", Json.str "")] env up
      = ⟨400, some (errObj "Invalid request: prompt is required and must be a string"), false⟩
  ∧ aiTaskRoute task [("content", Json.str "")] env up
      = ⟨400, some (errObj "Content is required"), false⟩ :=
  ⟨translateServer_badPrompt [("prompt", Json.str "")] env up rfl,
    translateServerless_badPrompt [("prompt", Json.str "")] env up rfl,
    aiTask_falsyContent task [("content", Json.str "")] env up rfl⟩
